import Mathlib

/-!
Formal model of the daham-blogsite Flask application (src/main.py, src/forms.py).

The three database tables, the WTForms validation rules and the route handlers
are embedded as pure functions over an explicit database state `DB`.  A route
handler takes the request data (path argument, whether the request is a form
submission, the submitted fields), the database state and the session (the id
stored by flask-login, if any) and returns a `RouteResult`: the new database
state, the new session, the flash messages emitted by this request and the HTTP
response.  External collaborators (the password hash, the Email() and URL()
validators) are passed in as function parameters, mirroring their role as
opaque third-party functions.
-/

/-- A row of the `users` table (main.py, class User); `password` holds the hash
produced by generate_password_hash. `email` carries a UNIQUE constraint. -/
structure User where
  id : Nat
  email : String
  name : String
  password : String
deriving DecidableEq

/-- A row of the `blog_posts` table (main.py, class BlogPost); `author_id` is a
nullable foreign key into `users`, and `title` carries a UNIQUE constraint. -/
structure BlogPost where
  id : Nat
  author_id : Option Nat
  title : String
  subtitle : String
  date : String
  body : String
  img_url : String
deriving DecidableEq

/-- A row of the `comments` table (main.py, class Comment); `author_id` and
`post_id` are nullable foreign keys into `users` and `blog_posts`. -/
structure Comment where
  id : Nat
  author_id : Option Nat
  post_id : Option Nat
  text : String
deriving DecidableEq

/-- The persistent state: the three tables of blog.db. -/
structure DB where
  users : List User
  posts : List BlogPost
  comments : List Comment
deriving DecidableEq

/-- User.query.get(uid): first user whose primary key is `uid`. -/
def DB.getUser (st : DB) (uid : Nat) : Option User :=
  st.users.find? (fun u => u.id == uid)

/-- User.query.filter_by(email=e).first(). -/
def DB.findUserByEmail (st : DB) (e : String) : Option User :=
  st.users.find? (fun u => u.email == e)

/-- BlogPost.query.get(pid). -/
def DB.getPost (st : DB) (pid : Nat) : Option BlogPost :=
  st.posts.find? (fun p => p.id == pid)

/-- BlogPost.query.all(), as used by the index route. -/
def DB.allPosts (st : DB) : List BlogPost := st.posts

/-- Comment.query.filter_by(post_id=pid).all(). -/
def DB.commentsFor (st : DB) (pid : Nat) : List Comment :=
  st.comments.filter (fun c => c.post_id == some pid)

/-- Largest element of a list of ids (0 when empty). -/
def maxId (ids : List Nat) : Nat := ids.foldr max 0

/-- Fresh primary key for `users` (SQLite assigns max rowid + 1). -/
def DB.nextUserId (st : DB) : Nat := maxId (st.users.map User.id) + 1

/-- Fresh primary key for `blog_posts`. -/
def DB.nextPostId (st : DB) : Nat := maxId (st.posts.map BlogPost.id) + 1

/-- Fresh primary key for `comments`. -/
def DB.nextCommentId (st : DB) : Nat := maxId (st.comments.map Comment.id) + 1

/-- flask-login identity for one request: anonymous, or a resolved User row. -/
inductive CurrentUser where
  | anonymous : CurrentUser
  | authenticated : User → CurrentUser
deriving DecidableEq

/-- The user_loader: resolve the session to a User row, else stay anonymous. -/
def currentUser (st : DB) (sess : Option Nat) : CurrentUser :=
  match sess with
  | none => CurrentUser.anonymous
  | some uid =>
    match st.getUser uid with
    | none => CurrentUser.anonymous
    | some u => CurrentUser.authenticated u

/-- The responses the routes of main.py can produce.  `serverError` stands for
an exception escaping the handler (Flask answers HTTP 500). -/
inductive Response where
  | abort : Nat → Response
  | redirect : String → Option Nat → Response
  | render : String → Response
  | renderIndex : List BlogPost → Response
  | renderPostPage : Option BlogPost → List Comment → Response
  | serverError : String → Response
deriving DecidableEq

/-- Outcome of one request: new tables, new session, flashes, response. -/
structure RouteResult where
  db : DB
  session : Option Nat
  flashes : List String
  response : Response
deriving DecidableEq

/-- The wtforms DataRequired() validator on a string field. -/
def dataRequired (s : String) : Bool := !s.isEmpty

/-- Fields of forms.py CreatePostForm. -/
structure CreatePostFormData where
  title : String
  img_url : String
  subtitle : String
  author : String
  body : String
deriving DecidableEq

/-- CreatePostForm validators: DataRequired on every field, URL() on img_url.
The URL() check is an external collaborator, passed in as `urlOk`. -/
def CreatePostForm.validate (urlOk : String → Bool) (f : CreatePostFormData) : Bool :=
  dataRequired f.title && (dataRequired f.img_url && urlOk f.img_url) &&
    dataRequired f.subtitle && dataRequired f.author && dataRequired f.body

/-- Fields of forms.py RegisterForm. -/
structure RegisterFormData where
  name : String
  email : String
  password : String
deriving DecidableEq

/-- RegisterForm validators: DataRequired on all three, Email() on email
(external, passed as `emailOk`), Length(min=4) on password. -/
def RegisterForm.validate (emailOk : String → Bool) (f : RegisterFormData) : Bool :=
  dataRequired f.name && (dataRequired f.email && emailOk f.email) &&
    (dataRequired f.password && decide (4 ≤ f.password.length))

/-- Fields of forms.py LoginForm. -/
structure LoginFormData where
  email : String
  password : String
deriving DecidableEq

/-- LoginForm validators: DataRequired + Email() on email, DataRequired on
password. -/
def LoginForm.validate (emailOk : String → Bool) (f : LoginFormData) : Bool :=
  (dataRequired f.email && emailOk f.email) && dataRequired f.password

/-- Field of forms.py CommentForm. -/
structure CommentFormData where
  comment : String
deriving DecidableEq

/-- forms.py CommentForm declares no validators on the comment field, so
validation of a submitted comment form always succeeds. -/
def CommentForm.validate (_f : CommentFormData) : Bool := true

/-- The abort(403) outcome: state and session untouched, no flash. -/
def abort403 (st : DB) (sess : Option Nat) : RouteResult :=
  ⟨st, sess, [], Response.abort 403⟩

/-- main.py admin_only decorator: if the current user is anonymous or its id is
not 1, abort(403) before the wrapped route body runs; otherwise run the body. -/
def admin_only (f : DB → Option Nat → RouteResult) (st : DB) (sess : Option Nat) :
    RouteResult :=
  match currentUser st sess with
  | CurrentUser.anonymous => abort403 st sess
  | CurrentUser.authenticated u =>
    if u.id ≠ 1 then abort403 st sess else f st sess

/-- GET / : render the index with all posts. -/
def get_all_posts (st : DB) (sess : Option Nat) : RouteResult :=
  ⟨st, sess, [], Response.renderIndex st.allPosts⟩

/-- The /register route.  `hashFn` is generate_password_hash, `submitted` is
true for a POST submission.  On a valid submission the route first looks the
email up; if a row exists it flashes and redirects to login, otherwise it
inserts the new user (the UNIQUE constraint on email is re-checked at commit by
the storage engine, which cannot fire here because the lookup found nothing)
and logs the new user in. -/
def register (hashFn : String → String) (emailOk : String → Bool)
    (submitted : Bool) (form : RegisterFormData)
    (st : DB) (sess : Option Nat) : RouteResult :=
  if submitted && RegisterForm.validate emailOk form then
    match st.findUserByEmail form.email with
    | some _ =>
      ⟨st, sess, ["This Email is already registered!, Try Login instead."],
        Response.redirect "login" none⟩
    | none =>
      let newUser : User := ⟨st.nextUserId, form.email, form.name, hashFn form.password⟩
      if st.users.any (fun u => u.email == form.email) then
        ⟨st, sess, [], Response.serverError "IntegrityError: UNIQUE constraint failed: users.email"⟩
      else
        ⟨{ st with users := st.users ++ [newUser] }, some newUser.id, [],
          Response.redirect "get_all_posts" none⟩
  else ⟨st, sess, [], Response.render "register.html"⟩

/-- The /login route.  `checkHash` is check_password_hash (stored hash first,
candidate password second). -/
def login (checkHash : String → String → Bool) (emailOk : String → Bool)
    (submitted : Bool) (form : LoginFormData)
    (st : DB) (sess : Option Nat) : RouteResult :=
  if submitted && LoginForm.validate emailOk form then
    match st.findUserByEmail form.email with
    | some user =>
      if checkHash user.password form.password then
        ⟨st, some user.id, [], Response.redirect "get_all_posts" none⟩
      else
        ⟨st, sess, ["Wrong Password, Try again!"], Response.redirect "login" none⟩
    | none => ⟨st, sess, ["This Email is invalid!"], Response.redirect "login" none⟩
  else ⟨st, sess, [], Response.render "login.html"⟩

/-- The /post/<post_id> route.  On a submitted comment form: an authenticated
user gets a Comment row inserted and committed, after which line 172 evaluates
redirect(url_for("show_post")) without the required post_id argument — werkzeug
raises BuildError, the exception escapes the handler and the request ends in an
unhandled server error (the final render_template line is never reached); an
anonymous user gets a flash and a redirect to login.  Without a submission the
post page is rendered with the comments queried at the top of the handler. -/
def show_post (pid : Nat) (submitted : Bool) (form : CommentFormData)
    (st : DB) (sess : Option Nat) : RouteResult :=
  let requested_post := st.getPost pid
  let post_comments := st.commentsFor pid
  if submitted && CommentForm.validate form then
    match currentUser st sess with
    | CurrentUser.authenticated u =>
      let newComment : Comment :=
        ⟨st.nextCommentId, some u.id, requested_post.map BlogPost.id, form.comment⟩
      ⟨{ st with comments := st.comments ++ [newComment] }, sess, [],
        Response.serverError "BuildError"⟩
    | CurrentUser.anonymous =>
      ⟨st, sess, ["You need to Login to comment"], Response.redirect "login" none⟩
  else ⟨st, sess, [], Response.renderPostPage requested_post post_comments⟩

/-- A calendar date as used by datetime.date. -/
structure Date where
  year : Nat
  month : Nat
  day : Nat
deriving DecidableEq

/-- strftime %B: the full month name. -/
def monthName : Nat → String
  | 1 => "January"
  | 2 => "February"
  | 3 => "March"
  | 4 => "April"
  | 5 => "May"
  | 6 => "June"
  | 7 => "July"
  | 8 => "August"
  | 9 => "September"
  | 10 => "October"
  | 11 => "November"
  | 12 => "December"
  | _ => ""

/-- strftime %d: the day of the month, zero padded to two digits. -/
def pad2 (n : Nat) : String :=
  if n < 10 then "0" ++ toString n else toString n

/-- date.today().strftime("%B %d, %Y"): full month name, zero-padded day,
comma, year. -/
def strftimeBdY (d : Date) : String :=
  monthName d.month ++ " " ++ pad2 d.day ++ ", " ++ toString d.year

/-- Body of the /new-post route (inside the admin_only wrapper).  On a valid
submission it builds the new BlogPost with the stamped date and the current
user as author and commits; the commit enforces the UNIQUE constraint on title
(an existing post with the same title makes the insert fail with an unhandled
IntegrityError).  Accessing current_user.id while anonymous would raise; that
branch is unreachable under the wrapper. -/
def add_new_post_body (urlOk : String → Bool) (today : Date)
    (submitted : Bool) (form : CreatePostFormData)
    (st : DB) (sess : Option Nat) : RouteResult :=
  if submitted && CreatePostForm.validate urlOk form then
    match currentUser st sess with
    | CurrentUser.anonymous => ⟨st, sess, [], Response.serverError "AttributeError"⟩
    | CurrentUser.authenticated u =>
      let newPost : BlogPost :=
        ⟨st.nextPostId, some u.id, form.title, form.subtitle, strftimeBdY today,
          form.body, form.img_url⟩
      if st.posts.any (fun q => q.title == form.title) then
        ⟨st, sess, [],
          Response.serverError "IntegrityError: UNIQUE constraint failed: blog_posts.title"⟩
      else
        ⟨{ st with posts := st.posts ++ [newPost] }, sess, [],
          Response.redirect "get_all_posts" none⟩
  else ⟨st, sess, [], Response.render "make-post.html"⟩

/-- The /new-post route: admin_only around `add_new_post_body`. -/
def add_new_post (urlOk : String → Bool) (today : Date)
    (submitted : Bool) (form : CreatePostFormData) : DB → Option Nat → RouteResult :=
  admin_only (add_new_post_body urlOk today submitted form)

/-- Body of the /edit-post/<post_id> route (inside the admin_only wrapper).
BlogPost.query.get first (a missing post raises while the form is pre-filled
from it); on a valid submission the in-memory row takes the submitted title,
subtitle, img_url and body, the author relation is resolved (raising when it
cannot be) and its name takes the submitted author field, then the commit
enforces the UNIQUE constraint on title: if any other row already has the
submitted title the commit fails with an unhandled IntegrityError and the
stored state is unchanged, otherwise both updated rows are stored and the route
redirects to the post page. -/
def edit_post_body (urlOk : String → Bool) (pid : Nat)
    (submitted : Bool) (form : CreatePostFormData)
    (st : DB) (sess : Option Nat) : RouteResult :=
  match st.getPost pid with
  | none => ⟨st, sess, [], Response.serverError "AttributeError"⟩
  | some post =>
    if submitted && CreatePostForm.validate urlOk form then
      match post.author_id with
      | none => ⟨st, sess, [], Response.serverError "AttributeError"⟩
      | some aid =>
        match st.getUser aid with
        | none => ⟨st, sess, [], Response.serverError "AttributeError"⟩
        | some author =>
          let post' : BlogPost :=
            { post with title := form.title, subtitle := form.subtitle,
                        img_url := form.img_url, body := form.body }
          let author' : User := { author with name := form.author }
          if st.posts.any (fun q => q.id != post.id && q.title == form.title) then
            ⟨st, sess, [],
              Response.serverError "IntegrityError: UNIQUE constraint failed: blog_posts.title"⟩
          else
            ⟨{ st with
                posts := st.posts.map (fun q => if q.id == post.id then post' else q),
                users := st.users.map (fun v => if v.id == author.id then author' else v) },
              sess, [], Response.redirect "show_post" (some post.id)⟩
    else ⟨st, sess, [], Response.render "make-post.html"⟩

/-- The /edit-post/<post_id> route: admin_only around `edit_post_body`. -/
def edit_post (urlOk : String → Bool) (pid : Nat)
    (submitted : Bool) (form : CreatePostFormData) : DB → Option Nat → RouteResult :=
  admin_only (edit_post_body urlOk pid submitted form)

/-- Body of the /delete/<post_id> route (inside the admin_only wrapper).
db.session.delete on the row fetched by primary key (raising when the post is
absent, since delete(None) is rejected by the ORM), then commit.  The
post_comments relationship (main.py line 62) declares no delete cascade and no
passive_deletes, so at flush the ORM loads the dependent Comment rows and nulls
their post_id (UPDATE comments SET post_id=NULL) before issuing the DELETE:
the dependent rows are not removed, only their parent-post reference is
cleared. -/
def delete_post_body (pid : Nat) (st : DB) (sess : Option Nat) : RouteResult :=
  match st.getPost pid with
  | none => ⟨st, sess, [], Response.serverError "UnmappedInstanceError"⟩
  | some _ =>
    ⟨{ st with
        posts := st.posts.filter (fun q => q.id != pid),
        comments := st.comments.map (fun c =>
          if c.post_id == some pid then { c with post_id := none } else c) },
      sess, [], Response.redirect "get_all_posts" none⟩

/-- The /delete/<post_id> route: admin_only around `delete_post_body`. -/
def delete_post (pid : Nat) : DB → Option Nat → RouteResult :=
  admin_only (delete_post_body pid)

/-- Display name of the author a post refers to, resolved through users. -/
def DB.authorNameOf (st : DB) (q : BlogPost) : Option String :=
  q.author_id.bind (fun i => (st.getUser i).map User.name)

/-! ## Helper lemmas -/

/-- A successful primary-key lookup returns a post with that id. -/
theorem getPost_id {st : DB} {pid : Nat} {p : BlogPost} (h : st.getPost pid = some p) :
    p.id = pid := by
  have h' : st.posts.find? (fun q => q.id == pid) = some p := h
  have := List.find?_some h'
  simpa using this

/-- A successful primary-key lookup returns a user with that id. -/
theorem getUser_id {st : DB} {uid : Nat} {u : User} (h : st.getUser uid = some u) :
    u.id = uid := by
  have h' : st.users.find? (fun v => v.id == uid) = some u := h
  have := List.find?_some h'
  simpa using this

/-- Every member of a list of ids is bounded by `maxId`. -/
theorem le_maxId {i : Nat} : ∀ {ids : List Nat}, i ∈ ids → i ≤ maxId ids := by
  intro ids
  induction ids with
  | nil => intro h; cases h
  | cons x xs ih =>
    intro h
    rcases List.mem_cons.mp h with h1 | h2
    · exact h1 ▸ Nat.le_max_left x (maxId xs)
    · exact Nat.le_trans (ih h2) (Nat.le_max_right x (maxId xs))

/-- The fresh comment id differs from the id of every stored comment. -/
theorem comment_id_ne_next (st : DB) : ∀ c ∈ st.comments, c.id ≠ st.nextCommentId := by
  intro c hc
  have h1 : c.id ∈ st.comments.map Comment.id := List.mem_map_of_mem _ hc
  have h2 : c.id ≤ maxId (st.comments.map Comment.id) := le_maxId h1
  simp only [DB.nextCommentId]
  omega

/-- Updating, via map, exactly the elements a find? search would hit makes the
search return the replacement (provided the replacement still matches). -/
theorem find?_map_ite {α : Type} (cond : α → Bool) (r : α) (hr : cond r = true) :
    ∀ (l : List α) (a : α), l.find? cond = some a →
      (l.map (fun x => if cond x then r else x)).find? cond = some r := by
  intro l
  induction l with
  | nil => intro a h; simp at h
  | cons x xs ih =>
    intro a h
    by_cases hx : cond x = true
    · simp [hx, hr]
    · have hx' : cond x = false := by simpa using hx
      have hmap : (x :: xs).map (fun y => if cond y then r else y) =
          x :: xs.map (fun y => if cond y then r else y) := by simp [hx']
      rw [hmap, List.find?_cons_of_neg _ hx]
      rw [List.find?_cons_of_neg _ hx] at h
      exact ih a h

/-- An element the update condition does not hit survives the map unchanged. -/
theorem mem_map_ite_of_neg {α : Type} (cond : α → Bool) (r : α) {l : List α} {b : α}
    (hb : b ∈ l) (hcond : cond b = false) :
    b ∈ l.map (fun x => if cond x then r else x) := by
  have hfb : (fun x => if cond x then r else x) b = b := by simp [hcond]
  exact hfb ▸ List.mem_map_of_mem (fun x => if cond x then r else x) hb

/-! ## Sample data used by the concrete witnesses and counterexamples -/

/-- Sample admin account (id 1, the admin sentinel). -/
def adminUser : User := ⟨1, "admin@x.com", "Admin", "h1"⟩

/-- Sample non-admin account (id 2). -/
def bobUser : User := ⟨2, "bob@x.com", "Bob", "h2"⟩

/-- Sample post with id 1, authored by the admin. -/
def basePost : BlogPost := ⟨1, some 1, "First", "Sub", "January 01, 2024", "Body", "http://img"⟩

/-- Sample post with id 2, authored by the admin. -/
def otherPost : BlogPost := ⟨2, some 1, "Second", "Sub2", "January 02, 2024", "Body2", "http://img2"⟩

/-- Sample comment by user 2 on post 1. -/
def baseComment : Comment := ⟨1, some 2, some 1, "Nice"⟩

/-- Sample database with two users, two posts and one comment. -/
def baseDB : DB := ⟨[adminUser, bobUser], [basePost, otherPost], [baseComment]⟩

/-- A sample wrapped route body. -/
def routeA : DB → Option Nat → RouteResult :=
  fun st sess => ⟨st, sess, [], Response.render "A"⟩

/-- A second, observably different, sample route body. -/
def routeB : DB → Option Nat → RouteResult :=
  fun st sess => ⟨st, sess, [], Response.render "B"⟩

/-- Stand-in for the external URL() validator that accepts everything. -/
def allUrlsOk : String → Bool := fun _ => true

/-! ## C1 -/

/-- C1: the admin_only gate runs the wrapped route body exactly when the
requesting identity is authenticated with id equal to the admin sentinel 1; for
an anonymous caller, or an authenticated caller whose id is not 1, it answers
403 Forbidden with the state and session untouched, without consulting the
wrapped body at all. -/
theorem admin_only_gate (f g : DB → Option Nat → RouteResult) (st : DB) (sess : Option Nat) :
    ((∃ u, currentUser st sess = CurrentUser.authenticated u ∧ u.id = 1) →
      admin_only f st sess = f st sess) ∧
    ((∀ u, currentUser st sess = CurrentUser.authenticated u → u.id ≠ 1) →
      admin_only f st sess = ⟨st, sess, [], Response.abort 403⟩ ∧
      admin_only f st sess = admin_only g st sess) := by
  constructor
  · rintro ⟨u, hu, hid⟩
    simp [admin_only, hu, hid]
  · intro h
    cases hcu : currentUser st sess with
    | anonymous => simp [admin_only, hcu, abort403]
    | authenticated u =>
      have hne : u.id ≠ 1 := h u hcu
      simp [admin_only, hcu, hne, abort403]

/-- C1 witness: with the sample database and a session resolving to the admin
account, the gate hands the request to the wrapped body. -/
theorem admin_only_gate_w :
    admin_only routeA baseDB (some 1) = routeA baseDB (some 1) :=
  (admin_only_gate routeA routeB baseDB (some 1)).1 ⟨adminUser, by decide, rfl⟩

/-! ## C2 -/

/-- Edit-form submission renaming post 1 to the title already held by post 2. -/
def dupTitleForm : CreatePostFormData := ⟨"Second", "http://img", "Sub", "Admin", "Body"⟩

/-- C2 counterexample: with stored posts "First" (id 1) and "Second" (id 2),
the admin submitting the edit form for post 1 with title "Second" passes form
validation (CreatePostForm has no uniqueness validator), and the route ends in
the storage-layer IntegrityError — not in the ValidationError re-rendering of
the form that the claim describes. -/
theorem edit_post_dup_title_cex :
    CreatePostForm.validate allUrlsOk dupTitleForm = true ∧
    (edit_post allUrlsOk 1 true dupTitleForm baseDB (some 1)).response =
      Response.serverError "IntegrityError: UNIQUE constraint failed: blog_posts.title" ∧
    (edit_post allUrlsOk 1 true dupTitleForm baseDB (some 1)).response ≠
      Response.render "make-post.html" := by decide

/-- C2 (amended): editing post A so that its title equals another existing
post B's title never succeeds silently, but the rejection comes from the
storage layer's UNIQUE constraint on title — the commit fails with an unhandled
IntegrityError — not from a form ValidationError: the stored state, in
particular A's stored title, is unchanged. -/
theorem edit_post_duplicate_title (urlOk : String → Bool) (st : DB) (sess : Option Nat)
    (pid : Nat) (form : CreatePostFormData) (u : User) (pA pB : BlogPost)
    (aid : Nat) (a : User)
    (hcu : currentUser st sess = CurrentUser.authenticated u) (hadm : u.id = 1)
    (hA : st.getPost pid = some pA)
    (haid : pA.author_id = some aid) (ha : st.getUser aid = some a)
    (hB : pB ∈ st.posts) (hne : pB.id ≠ pA.id)
    (ht : form.title = pB.title)
    (hform : CreatePostForm.validate urlOk form = true) :
    (edit_post urlOk pid true form st sess).db = st ∧
    (edit_post urlOk pid true form st sess).response =
      Response.serverError "IntegrityError: UNIQUE constraint failed: blog_posts.title" := by
  have hany : st.posts.any (fun q => q.id != pA.id && q.title == form.title) = true := by
    rw [List.any_eq_true]
    exact ⟨pB, hB, by simp [ht, hne]⟩
  simp [edit_post, admin_only, hcu, hadm, edit_post_body, hA, haid, ha, hform, hany]

/-- C2 witness: the amended theorem applied to the sample database, post 1 and
the duplicate-title form: the stored state is unchanged. -/
theorem edit_post_duplicate_title_w :
    (edit_post allUrlsOk 1 true dupTitleForm baseDB (some 1)).db = baseDB :=
  (edit_post_duplicate_title allUrlsOk baseDB (some 1) 1 dupTitleForm adminUser basePost
    otherPost 1 adminUser rfl rfl rfl rfl rfl (by decide) (by decide) rfl (by decide)).1

/-! ## C3 -/

/-- C3: a valid registration submission whose email already belongs to a stored
User leaves the users table (indeed the whole state and the session) unchanged
and answers the duplicate-email flash with a redirect to the login flow; the
duplicate is caught by the explicit lookup, so the response is the redirect and
never the storage-constraint failure. -/
theorem register_duplicate_email (hashFn : String → String) (emailOk : String → Bool)
    (form : RegisterFormData) (st : DB) (sess : Option Nat) (u : User)
    (hform : RegisterForm.validate emailOk form = true)
    (hdup : st.findUserByEmail form.email = some u) :
    (register hashFn emailOk true form st sess).db = st ∧
    (register hashFn emailOk true form st sess).session = sess ∧
    (register hashFn emailOk true form st sess).flashes =
      ["This Email is already registered!, Try Login instead."] ∧
    (register hashFn emailOk true form st sess).response = Response.redirect "login" none := by
  simp [register, hform, hdup]

/-- C3 witness: registering again with the already-stored email of the sample
admin account leaves the users table unchanged. -/
theorem register_duplicate_email_w :
    (register (fun s => s) (fun _ => true) true ⟨"Al", "admin@x.com", "pass1"⟩
      baseDB none).db = baseDB :=
  (register_duplicate_email (fun s => s) (fun _ => true) ⟨"Al", "admin@x.com", "pass1"⟩
    baseDB none adminUser (by decide) (by decide)).1

/-! ## C4 -/

/-- A comment submission whose text is the empty string. -/
def emptyCommentForm : CommentFormData := ⟨""⟩

/-- C4 counterexample: the authenticated user 2 submitting an empty comment on
post 1 does add a Comment row, with empty text: CommentForm declares no
validator on the comment field, so validation passes and show_post inserts the
row — refuting the claim that an empty submission never adds a Comment row. -/
theorem comment_empty_text_cex :
    CommentForm.validate emptyCommentForm = true ∧
    (show_post 1 true emptyCommentForm baseDB (some 2)).db.comments =
      baseDB.comments ++ [⟨2, some 2, some 1, ""⟩] := by decide

/-- C4 (amended): a Comment row is created whenever an authenticated user
submits the comment form on a post page, with exactly the submitted text —
including the empty string, since CommentForm declares no validator on the
comment field; so Comment rows with empty text are reachable and the non-empty
invariant does not hold. -/
theorem comment_created_even_empty (st : DB) (sess : Option Nat) (pid : Nat)
    (text : String) (u : User)
    (hcu : currentUser st sess = CurrentUser.authenticated u) :
    CommentForm.validate ⟨text⟩ = true ∧
    (show_post pid true ⟨text⟩ st sess).db.comments =
      st.comments ++
        [⟨st.nextCommentId, some u.id, (st.getPost pid).map BlogPost.id, text⟩] := by
  constructor
  · rfl
  · simp [show_post, CommentForm.validate, hcu]

/-- C4 witness: the amended theorem applied to the sample database with the
empty comment text. -/
theorem comment_created_even_empty_w :
    (show_post 1 true ⟨""⟩ baseDB (some 2)).db.comments =
      baseDB.comments ++ [⟨2, some 2, some 1, ""⟩] :=
  (comment_created_even_empty baseDB (some 2) 1 "" bobUser rfl).2

/-! ## C5 -/

/-- C5: deleting an existing post as the admin removes every post with that id
from the stored posts (so it no longer appears in the all-posts query); the
comments query for the deleted id afterwards returns a well-defined list — the
empty list, because the ORM flush nulled the dependent rows' parent reference —
and no dependent Comment row is removed: every stored comment survives with its
id, author reference and text intact, the table keeps its length, and the route
redirects to the index. -/
theorem delete_post_spec (st : DB) (sess : Option Nat) (pid : Nat) (u : User) (p : BlogPost)
    (hcu : currentUser st sess = CurrentUser.authenticated u) (hadm : u.id = 1)
    (hp : st.getPost pid = some p) :
    (∀ q ∈ (delete_post pid st sess).db.allPosts, q.id ≠ pid) ∧
    (delete_post pid st sess).db.commentsFor pid = [] ∧
    (∀ c ∈ st.comments, ∃ c' ∈ (delete_post pid st sess).db.comments,
      c'.id = c.id ∧ c'.author_id = c.author_id ∧ c'.text = c.text) ∧
    (delete_post pid st sess).db.comments.length = st.comments.length ∧
    (delete_post pid st sess).response = Response.redirect "get_all_posts" none := by
  have hred : delete_post pid st sess =
      ⟨⟨st.users, st.posts.filter (fun q => q.id != pid),
        st.comments.map (fun c => if c.post_id == some pid then
          ⟨c.id, c.author_id, none, c.text⟩ else c)⟩, sess, [],
        Response.redirect "get_all_posts" none⟩ := by
    simp [delete_post, admin_only, hcu, hadm, delete_post_body, hp]
  refine ⟨?_, ?_, ?_, ?_, ?_⟩
  · intro q hq
    rw [hred] at hq
    simp only [DB.allPosts] at hq
    have := (List.mem_filter.mp hq).2
    simpa using this
  · rw [hred]
    show List.filter (fun c => c.post_id == some pid)
      (st.comments.map (fun c => if c.post_id == some pid then
        ⟨c.id, c.author_id, none, c.text⟩ else c)) = []
    rw [List.filter_eq_nil_iff]
    intro a ha
    rcases List.mem_map.mp ha with ⟨c, _, rfl⟩
    by_cases h : (c.post_id == some pid) = true
    · simp [h]
    · have h' : (c.post_id == some pid) = false := by simpa using h
      simp [h']
  · intro c hc
    rw [hred]
    refine ⟨if c.post_id == some pid then ⟨c.id, c.author_id, none, c.text⟩ else c, ?_, ?_⟩
    · exact List.mem_map_of_mem _ hc
    · by_cases h : (c.post_id == some pid) = true <;> simp [h]
  · rw [hred]
    simp
  · rw [hred]

/-- C5 witness: after deleting post 1 from the sample database the comments
query for id 1 returns the (well-defined) empty list. -/
theorem delete_post_spec_w :
    (delete_post 1 baseDB (some 1)).db.commentsFor 1 = [] :=
  (delete_post_spec baseDB (some 1) 1 adminUser basePost rfl rfl rfl).2.1

/-! ## C7 -/

/-- C7: a valid login submission whose email matches a stored user but whose
password fails hash verification changes neither state nor session — an
anonymous requester stays anonymous on subsequent requests — and the route
flashes the wrong-password notice and redirects back to login. -/
theorem login_wrong_password (checkHash : String → String → Bool) (emailOk : String → Bool)
    (form : LoginFormData) (st : DB) (sess : Option Nat) (user : User)
    (hform : LoginForm.validate emailOk form = true)
    (huser : st.findUserByEmail form.email = some user)
    (hpw : checkHash user.password form.password = false)
    (hanon : currentUser st sess = CurrentUser.anonymous) :
    (login checkHash emailOk true form st sess).db = st ∧
    (login checkHash emailOk true form st sess).session = sess ∧
    currentUser (login checkHash emailOk true form st sess).db
        (login checkHash emailOk true form st sess).session = CurrentUser.anonymous ∧
    (login checkHash emailOk true form st sess).flashes = ["Wrong Password, Try again!"] ∧
    (login checkHash emailOk true form st sess).response = Response.redirect "login" none := by
  simp [login, hform, huser, hpw, hanon]

/-- C7 witness: a wrong-password login for the stored admin email from an
anonymous session leaves the requester anonymous. -/
theorem login_wrong_password_w :
    currentUser (login (fun _ _ => false) (fun _ => true) true ⟨"admin@x.com", "bad"⟩
        baseDB none).db
      (login (fun _ _ => false) (fun _ => true) true ⟨"admin@x.com", "bad"⟩
        baseDB none).session = CurrentUser.anonymous :=
  (login_wrong_password (fun _ _ => false) (fun _ => true) ⟨"admin@x.com", "bad"⟩
    baseDB none adminUser (by decide) (by decide) rfl rfl).2.2.1

/-! ## C6 -/

/-- C6: a successful admin edit of an existing post overwrites exactly the
post's title, subtitle, image URL and body together with the display name of
the referenced author User row: the post keeps its id, date and author
reference, every other post and every other user survive unchanged, the
comments table is untouched, and afterwards every post referring to that author
resolves to the new display name. -/
theorem edit_post_frame (urlOk : String → Bool) (st : DB) (sess : Option Nat)
    (pid : Nat) (form : CreatePostFormData) (u : User) (p : BlogPost)
    (aid : Nat) (a : User)
    (hcu : currentUser st sess = CurrentUser.authenticated u) (hadm : u.id = 1)
    (hp : st.getPost pid = some p)
    (haid : p.author_id = some aid) (ha : st.getUser aid = some a)
    (hform : CreatePostForm.validate urlOk form = true)
    (hfree : st.posts.any (fun q => q.id != p.id && q.title == form.title) = false) :
    (edit_post urlOk pid true form st sess).db.getPost pid =
      some ⟨p.id, p.author_id, form.title, form.subtitle, p.date, form.body, form.img_url⟩ ∧
    (edit_post urlOk pid true form st sess).db.getUser aid =
      some ⟨a.id, a.email, form.author, a.password⟩ ∧
    (∀ q ∈ st.posts, q.id ≠ p.id → q ∈ (edit_post urlOk pid true form st sess).db.posts) ∧
    (∀ v ∈ st.users, v.id ≠ a.id → v ∈ (edit_post urlOk pid true form st sess).db.users) ∧
    (edit_post urlOk pid true form st sess).db.comments = st.comments ∧
    (∀ q ∈ (edit_post urlOk pid true form st sess).db.posts, q.author_id = some aid →
      (edit_post urlOk pid true form st sess).db.authorNameOf q = some form.author) ∧
    (edit_post urlOk pid true form st sess).response =
      Response.redirect "show_post" (some p.id) := by
  have hpid : p.id = pid := getPost_id hp
  have haidid : a.id = aid := getUser_id ha
  subst hpid
  subst haidid
  have hred : edit_post urlOk p.id true form st sess =
      ⟨⟨st.users.map (fun v => if v.id == a.id then ⟨a.id, a.email, form.author, a.password⟩ else v),
        st.posts.map (fun q => if q.id == p.id then
          ⟨p.id, p.author_id, form.title, form.subtitle, p.date, form.body, form.img_url⟩ else q),
        st.comments⟩, sess, [], Response.redirect "show_post" (some p.id)⟩ := by
    simp [edit_post, admin_only, hcu, hadm, edit_post_body, hp, haid, ha, hform, hfree]
  have hp' : st.posts.find? (fun q : BlogPost => q.id == p.id) = some p := hp
  have ha' : st.users.find? (fun v : User => v.id == a.id) = some a := ha
  refine ⟨?_, ?_, ?_, ?_, ?_, ?_, ?_⟩
  · rw [hred]
    exact find?_map_ite (fun q : BlogPost => q.id == p.id)
      ⟨p.id, p.author_id, form.title, form.subtitle, p.date, form.body, form.img_url⟩
      (by simp) st.posts p hp'
  · rw [hred]
    exact find?_map_ite (fun v : User => v.id == a.id)
      ⟨a.id, a.email, form.author, a.password⟩ (by simp) st.users a ha'
  · intro q hq hne
    rw [hred]
    exact mem_map_ite_of_neg (fun q : BlogPost => q.id == p.id) _ hq (by simp [hne])
  · intro v hv hne
    rw [hred]
    exact mem_map_ite_of_neg (fun v : User => v.id == a.id) _ hv (by simp [hne])
  · rw [hred]
  · intro q _ hqa
    have h2 : (edit_post urlOk p.id true form st sess).db.getUser a.id =
        some ⟨a.id, a.email, form.author, a.password⟩ := by
      rw [hred]
      exact find?_map_ite (fun v : User => v.id == a.id)
        ⟨a.id, a.email, form.author, a.password⟩ (by simp) st.users a ha'
    simp [DB.authorNameOf, hqa, h2]
  · rw [hred]

/-- The edit submission used by the C6 witness: a fresh title and a new author
display name. -/
def renameForm : CreatePostFormData := ⟨"Renamed", "http://img", "S2", "NewName", "B2"⟩

/-- C6 witness: editing post 1 of the sample database overwrites exactly the
targeted fields and keeps id, date and author reference. -/
theorem edit_post_frame_w :
    (edit_post allUrlsOk 1 true renameForm baseDB (some 1)).db.getPost 1 =
      some ⟨1, some 1, "Renamed", "S2", "January 01, 2024", "B2", "http://img"⟩ :=
  (edit_post_frame allUrlsOk baseDB (some 1) 1 renameForm adminUser basePost 1 adminUser
    rfl rfl rfl rfl rfl (by decide) (by decide)).1

/-! ## C8 -/

/-- C8: a submitted comment form on an existing post: an anonymous requester
adds no Comment row (the state is unchanged) and is redirected toward login
with a notice; an authenticated requester adds exactly one new Comment row,
whose parent-post reference is the requested post and whose author reference is
the requesting user, while posts and users stay unchanged. -/
theorem show_post_comment_rows (st : DB) (sess : Option Nat) (pid : Nat)
    (form : CommentFormData) (p : BlogPost)
    (hp : st.getPost pid = some p) :
    (currentUser st sess = CurrentUser.anonymous →
      (show_post pid true form st sess).db = st ∧
      (show_post pid true form st sess).flashes = ["You need to Login to comment"] ∧
      (show_post pid true form st sess).response = Response.redirect "login" none) ∧
    (∀ u, currentUser st sess = CurrentUser.authenticated u →
      (show_post pid true form st sess).db.comments =
        st.comments ++ [⟨st.nextCommentId, some u.id, some pid, form.comment⟩] ∧
      (show_post pid true form st sess).db.posts = st.posts ∧
      (show_post pid true form st sess).db.users = st.users) := by
  have hpid : p.id = pid := getPost_id hp
  constructor
  · intro hanon
    simp [show_post, CommentForm.validate, hanon]
  · intro u hcu
    simp [show_post, CommentForm.validate, hcu, hp, hpid]

/-- C8 witness: the authenticated user 2 commenting on post 1 of the sample
database adds exactly the one expected Comment row. -/
theorem show_post_comment_rows_w :
    (show_post 1 true ⟨"Yo"⟩ baseDB (some 2)).db.comments =
      baseDB.comments ++ [⟨2, some 2, some 1, "Yo"⟩] :=
  ((show_post_comment_rows baseDB (some 2) 1 ⟨"Yo"⟩ basePost rfl).2 bobUser rfl).1

/-! ## C9 -/

/-- C9: a successful admin creation via /new-post appends exactly one post
whose date field is the current calendar date rendered by strftime
"%B %d, %Y" — full month name, zero-padded day, comma, year — and whose author
reference is the id of the authenticated creator; the route then redirects to
the index. -/
theorem add_new_post_spec (urlOk : String → Bool) (today : Date)
    (form : CreatePostFormData) (st : DB) (sess : Option Nat) (u : User)
    (hcu : currentUser st sess = CurrentUser.authenticated u) (hadm : u.id = 1)
    (hform : CreatePostForm.validate urlOk form = true)
    (hfree : st.posts.any (fun q => q.title == form.title) = false) :
    (add_new_post urlOk today true form st sess).db.posts =
      st.posts ++ [⟨st.nextPostId, some u.id, form.title, form.subtitle,
        strftimeBdY today, form.body, form.img_url⟩] ∧
    (add_new_post urlOk today true form st sess).response =
      Response.redirect "get_all_posts" none := by
  simp [add_new_post, admin_only, hcu, hadm, add_new_post_body, hform, hfree]

/-- C9 witness: the admin creating "T1" on 2026-10-12 stores the post with date
"October 12, 2026" and author reference 1. -/
theorem add_new_post_spec_w :
    (add_new_post allUrlsOk ⟨2026, 10, 12⟩ true ⟨"T1", "http://i", "S", "Admin", "B"⟩
        baseDB (some 1)).db.posts =
      baseDB.posts ++ [⟨3, some 1, "T1", "S", "October 12, 2026", "B", "http://i"⟩] :=
  (add_new_post_spec allUrlsOk ⟨2026, 10, 12⟩ ⟨"T1", "http://i", "S", "Admin", "B"⟩
    baseDB (some 1) adminUser rfl rfl (by decide) (by decide)).1

/-! ## C10 -/

/-- C10 counterexample: the authenticated user 2 posting a valid comment on
post 1 does not get the post-page rendering back: line 172 evaluates
redirect(url_for("show_post")) without the required post_id, werkzeug raises
BuildError, and the request ends in an unhandled server error. -/
theorem show_post_render_cex :
    (show_post 1 true ⟨"hello"⟩ baseDB (some 2)).response =
      Response.serverError "BuildError" ∧
    (show_post 1 true ⟨"hello"⟩ baseDB (some 2)).response ≠
      Response.renderPostPage (baseDB.getPost 1) (baseDB.commentsFor 1) := by decide

/-- C10 (amended): for every valid comment POST by an authenticated user the
handler does not return the computed redirect: url_for("show_post") raises
BuildError for want of the post_id argument, so the response is an unhandled
server error — neither the redirect nor a rendering of the post page; the new
Comment row is committed before the failure, and the comment list queried
before the insert cannot contain the new comment, whose id is fresh. -/
theorem show_post_comment_response (st : DB) (sess : Option Nat) (pid : Nat)
    (form : CommentFormData) (u : User)
    (hcu : currentUser st sess = CurrentUser.authenticated u) :
    (show_post pid true form st sess).response = Response.serverError "BuildError" ∧
    (show_post pid true form st sess).db.comments =
      st.comments ++
        [⟨st.nextCommentId, some u.id, (st.getPost pid).map BlogPost.id, form.comment⟩] ∧
    (∀ c ∈ st.commentsFor pid, c.id ≠ st.nextCommentId) := by
  refine ⟨?_, ?_, ?_⟩
  · simp [show_post, CommentForm.validate, hcu]
  · simp [show_post, CommentForm.validate, hcu]
  · intro c hc
    exact comment_id_ne_next st c (List.mem_filter.mp hc).1

/-- C10 witness: the authenticated comment POST on the sample database answers
the unhandled BuildError, not a page. -/
theorem show_post_comment_response_w :
    (show_post 1 true ⟨"hey"⟩ baseDB (some 2)).response =
      Response.serverError "BuildError" :=
  (show_post_comment_response baseDB (some 2) 1 ⟨"hey"⟩ bobUser rfl).1
